import Mathlib

/-!
Shallow embedding of `src/reminders.js` (the Notion → Slack reminder job:
query → filter → group → format → send), together with theorems settling
the specification's claims about it.

Modelling conventions:
* A Notion page is a record with a list of named properties; each property
  is a JS-style object with a `type` tag and optional payload fields
  (`title`, `select`, `status`, `date`).  `page.properties?.[name]` becomes
  an association-list lookup returning `Option Property`.
* The network side (Notion query transport, Slack webhook / Web API) is
  external: functions that perform I/O are modelled as pure functions that
  additionally return the list of outbound `SlackCall`s they make, and
  thrown JS errors become `Except.error` with the thrown message.
* `dayjs(s).format` on the ISO date strings Notion returns yields the
  leading `YYYY-MM-DD` segment; it is modelled as `String.take 10`.
* The source file's string literals are kept byte-for-byte: the first
  variant of the repository stores its emoji double-encoded (UTF-8 read as
  cp1252), so the header bell is the four characters `ðŸ””`,
  the check mark is `âœ…`, the bullet is `â€¢`
  and the em dash is `â€”`.
-/

namespace Reminders

/-- One rich-text fragment of a Notion title property; only its
`plain_text` is read by the code. -/
structure RichText where
  plain_text : String
deriving DecidableEq

/-- Payload of a select- or status-typed property: `select.name` /
`status.name` may be absent (JS `undefined`/`null`). -/
structure SelectVal where
  name : Option String
deriving DecidableEq

/-- Payload of a date-typed property: `date.start` may be absent. -/
structure DateVal where
  start : Option String
deriving DecidableEq

/-- A Notion property object: a `type` tag plus the optional payload
fields the code reads.  In JS these fields are independent of the tag; the
code always checks `prop.type` before reading the matching payload. -/
structure Property where
  type : String
  title : Option (List RichText) := none
  select : Option SelectVal := none
  status : Option SelectVal := none
  date : Option DateVal := none
deriving DecidableEq

/-- A Notion page: named properties.  `properties` is an association list;
lookup takes the first binding, as a JS object has unique keys. -/
structure Page where
  properties : List (String × Property)
deriving DecidableEq

/-- JS `page.properties?.[name]`. -/
def Page.getProp (page : Page) (name : String) : Option Property :=
  (page.properties.find? (fun kv => kv.1 == name)).map (fun kv => kv.2)

/-- Notion property-name constants from the source. -/
def PROP_TITLE : String := "Name"

/-- Property name of the due date. -/
def PROP_NEXT_DUE : String := "Next due"

/-- Property name of the status. -/
def PROP_STATUS : String := "Status"

/-- Property name of the type/category. -/
def PROP_TYPE : String := "Type"

/-- Property name of the environment. -/
def PROP_ENV : String := "Environment"

/-- JS `String.prototype.trim`: strip leading and trailing whitespace.
Written over the character list so concrete inputs evaluate by kernel
reduction (the built-in `String.trim` is well-founded-recursive and does
not). -/
def jsTrim (s : String) : String :=
  ⟨((s.data.dropWhile Char.isWhitespace).reverse.dropWhile
      Char.isWhitespace).reverse⟩

/-- JS `s.startsWith(p)`: the first `p.length` characters of `s` equal
`p`.  Written over the character list so concrete inputs evaluate by
kernel reduction. -/
def jsStartsWith (s p : String) : Bool :=
  s.data.take p.data.length == p.data

/-- The text a title property resolves to before the fallback:
`(prop.title || []).map(t => t.plain_text).join("").trim()`. -/
def titleText (prop : Property) : String :=
  jsTrim (String.join ((prop.title.getD []).map RichText.plain_text))

/-- `getTitle(page)`: reads the title-typed property, concatenates the
fragments' plain text and trims; `"(Untitled)"` when the property is
absent, not title-typed, or the trimmed text is empty (the JS or-else
idiom treats the empty string as falsy).  Total. -/
def getTitle (page : Page) : String :=
  match page.getProp PROP_TITLE with
  | none => "(Untitled)"
  | some prop =>
    if prop.type = "title" then
      if titleText prop = "" then "(Untitled)" else titleText prop
    else "(Untitled)"

/-- `getDate(page, propName)`: the date property's `start` string, or
`none` when absent, not date-typed, or falsy (JS `prop.date?.start || null`
maps the empty string to `null`). -/
def getDate (page : Page) (propName : String) : Option String :=
  match page.getProp propName with
  | none => none
  | some prop =>
    if prop.type = "date" then
      match prop.date with
      | none => none
      | some d =>
        match d.start with
        | none => none
        | some s => if s = "" then none else some s
    else none

/-- `getSelectName(page, propName)`: the select property's label, `""`
when absent or wrong-typed. -/
def getSelectName (page : Page) (propName : String) : String :=
  match page.getProp propName with
  | none => ""
  | some prop =>
    if prop.type = "select" then
      match prop.select with
      | none => ""
      | some sel => sel.name.getD ""
    else ""

/-- `getStatusName(page, propName)`: like `getSelectName` but also accepts
a status-typed property. -/
def getStatusName (page : Page) (propName : String) : String :=
  match page.getProp propName with
  | none => ""
  | some prop =>
    if prop.type = "select" then
      match prop.select with
      | none => ""
      | some sel => sel.name.getD ""
    else if prop.type = "status" then
      match prop.status with
      | none => ""
      | some st => st.name.getD ""
    else ""

/-- Modelled collaborator call: `dayjs(s).format` applied to the ISO
date strings Notion returns yields the leading `YYYY-MM-DD` segment. -/
def dayjsFormatYMD (s : String) : String := ⟨s.data.take 10⟩

/-- The grouping key computed inside `groupByDueDate`'s loop:
`due ? dayjs(due).format("YYYY-MM-DD") : "No due date"`. -/
def dueKey (p : Page) : String :=
  match getDate p PROP_NEXT_DUE with
  | some due => dayjsFormatYMD due
  | none => "No due date"

/-- One step of the JS `Map` used by `groupByDueDate`: append `p` to the
first group with key `key`, or append a new `(key, [p])` group at the end
(JS `Map` preserves insertion order). -/
def insertGrouped : List (String × List Page) → String → Page →
    List (String × List Page)
  | [], key, p => [(key, [p])]
  | (k, ps) :: rest, key, p =>
    if k = key then (k, ps ++ [p]) :: rest
    else (k, ps) :: insertGrouped rest key p

/-- `groupByDueDate(items)`: insertion-ordered map from due-date key to
the pages carrying that key, in input order. -/
def groupByDueDate (items : List Page) : List (String × List Page) :=
  items.foldl (fun groups p => insertGrouped groups (dueKey p) p) []

/-- The item line pushed for each page of a group:
`• {type / env — }{title}{ _(Status: s)_}` with the source's
(double-encoded) bullet and em dash literals. -/
def itemLine (p : Page) : String :=
  let title := getTitle p
  let type := getSelectName p PROP_TYPE
  let env := getSelectName p PROP_ENV
  let status := getStatusName p PROP_STATUS
  let bits := [type, env].filter (fun s => s != "")
  let pre := if bits.length != 0 then String.intercalate " / " bits ++ " â€” " else ""
  let statusTxt := if status != "" then " _(Status: " ++ status ++ ")_" else ""
  "â€¢ " ++ pre ++ title ++ statusTxt

/-- The header line (first line of every digest), with the source's
double-encoded bell literal. -/
def headerLine (lookaheadDays : Nat) : String :=
  "ðŸ”” *Privacy & Security Reminders* (next " ++ toString lookaheadDays ++ " days)"

/-- `formatDigest(items)`: empty-case two-line message, else header plus
per-group sections (blank line, bolded date key, one line per item).
`LOOKAHEAD_DAYS` is passed explicitly as `lookaheadDays`. -/
def formatDigest (items : List Page) (lookaheadDays : Nat) : String :=
  if items.length = 0 then
    headerLine lookaheadDays ++ "\nâœ… Nothing due in the next " ++
      toString lookaheadDays ++ " days."
  else
    let lines := (groupByDueDate items).foldl
      (fun acc g => acc ++ ("\n*" ++ g.1 ++ "*") :: g.2.map itemLine) []
    headerLine lookaheadDays ++ "\n" ++ String.intercalate "\n" lines

/-- `fetchDueItems`: the Notion query transport is external; the response's
`results` list is the input, and the function returns the client-side
filtered list (drop pages whose extracted status equals the configured
done-status name, compared exactly as JS `!==` does). -/
def fetchDueItems (results : List Page) (doneStatusName : String) : List Page :=
  results.filter (fun p => getStatusName p PROP_STATUS != doneStatusName)

/-- An outbound network/timer effect of the delivery code, in program
order: the webhook `fetch`, `conversations.open`, `chat.postMessage`, and
the `setTimeout` pacing delay (milliseconds). -/
inductive SlackCall where
  | webhookPost (url text : String)
  | conversationsOpen (userId : String)
  | chatPostMessage (channel text : String)
  | sleep (ms : Nat)
deriving DecidableEq

/-- Responses of the external Slack collaborator: what channel id a
`conversations.open(u)` returns (`none` models a response without
`channel.id`), and whether the webhook answers 2xx.  `chat.postMessage`
replies are not inspected by the code, so they need no model. -/
structure SlackEnv where
  openChannelId : String → Option String
  webhookOk : String → Bool

/-- Run configuration (the environment variables after parsing). -/
structure Config where
  webhookUrl : String := ""
  botToken : String := ""
  lookaheadDays : Nat := 7
  postWhenEmpty : Bool := true
  doneStatusName : String := "Done"
  dmTargets : List String := []

/-- `postToSlackWebhook(text)`: returns `false` with no call when no
webhook URL is configured; otherwise one POST, `true` on 2xx and a thrown
error otherwise. -/
def postToSlackWebhook (env : SlackEnv) (webhookUrl text : String) :
    List SlackCall × Except String Bool :=
  if webhookUrl = "" then ([], Except.ok false)
  else if env.webhookOk webhookUrl then
    ([SlackCall.webhookPost webhookUrl text], Except.ok true)
  else
    ([SlackCall.webhookPost webhookUrl text], Except.error "Slack webhook failed")

/-- `openBotDmWithUser(userId)`: throws without a bot token
(`hasSlack = false` models `slack === null`); otherwise one
`conversations.open` call, returning the response's channel id or throwing
when it is missing. -/
def openBotDmWithUser (env : SlackEnv) (hasSlack : Bool) (userId : String) :
    List SlackCall × Except String String :=
  if !hasSlack then ([], Except.error "Missing SLACK_BOT_TOKEN (required for DMs).")
  else
    match env.openChannelId userId with
    | some dmChannelId => ([SlackCall.conversationsOpen userId], Except.ok dmChannelId)
    | none =>
      ([SlackCall.conversationsOpen userId],
        Except.error ("Could not open DM with user " ++ userId))

/-- `dmTarget(targetId, text)`: `D…` posts directly, `U…` opens the DM
then posts to the returned channel, anything else throws. -/
def dmTarget (env : SlackEnv) (hasSlack : Bool) (targetId text : String) :
    List SlackCall × Except String Unit :=
  if !hasSlack then ([], Except.error "Missing SLACK_BOT_TOKEN (required for DMs).")
  else if jsStartsWith targetId "D" then
    ([SlackCall.chatPostMessage targetId text], Except.ok ())
  else if jsStartsWith targetId "U" then
    match openBotDmWithUser env hasSlack targetId with
    | (calls, Except.ok dmChannelId) =>
      (calls ++ [SlackCall.chatPostMessage dmChannelId text], Except.ok ())
    | (calls, Except.error e) => (calls, Except.error e)
  else ([], Except.error ("DM target must start with U or D. Got: " ++ targetId))

/-- The DM loop of `main` (`for (const target of DM_TARGETS) …`): each
iteration awaits `dmTarget`, increments `dmsSent`, then sleeps 1100 ms; a
thrown error aborts the remaining targets.  Returns the calls made and the
final `dmsSent`. -/
def dmLoop (env : SlackEnv) (hasSlack : Bool) (text : String) :
    List String → List SlackCall × Except String Nat
  | [] => ([], Except.ok 0)
  | t :: rest =>
    match dmTarget env hasSlack t text with
    | (calls, Except.error e) => (calls, Except.error e)
    | (calls, Except.ok _) =>
      match dmLoop env hasSlack text rest with
      | (restCalls, Except.ok n) =>
        (calls ++ SlackCall.sleep 1100 :: restCalls, Except.ok (n + 1))
      | (restCalls, Except.error e) =>
        (calls ++ SlackCall.sleep 1100 :: restCalls, Except.error e)

/-- `RunResult` reported by the final summary line. -/
structure RunResult where
  dueCount : Nat
  channelPosted : Bool
  dmsSent : Nat
deriving DecidableEq

/-- The channel line of `main`:
`(items.length || POST_WHEN_EMPTY) ? await postToSlackWebhook(message) : false`. -/
def channelStage (cfg : Config) (env : SlackEnv) (items : List Page)
    (message : String) : List SlackCall × Except String Bool :=
  if items.length != 0 || cfg.postWhenEmpty then
    postToSlackWebhook env cfg.webhookUrl message
  else ([], Except.ok false)

/-- The DM block of `main`: only when there are due items and configured
targets, require the bot token and run the loop; otherwise zero DMs. -/
def dmStage (cfg : Config) (env : SlackEnv) (items : List Page)
    (message : String) : List SlackCall × Except String Nat :=
  if items.length != 0 && cfg.dmTargets.length != 0 then
    if cfg.botToken = "" then
      ([], Except.error "SLACK_DM_USER_IDS is set but SLACK_BOT_TOKEN is missing.")
    else dmLoop env (cfg.botToken != "") message cfg.dmTargets
  else ([], Except.ok 0)

/-- `main()`: fetch, format once, run the channel stage then the DM stage,
each thrown error aborting the rest of the run.  The Notion response's
`results` list is the `queryResults` input. -/
def main (cfg : Config) (env : SlackEnv) (queryResults : List Page) :
    List SlackCall × Except String RunResult :=
  let items := fetchDueItems queryResults cfg.doneStatusName
  let message := formatDigest items cfg.lookaheadDays
  match channelStage cfg env items message with
  | (calls, Except.error e) => (calls, Except.error e)
  | (calls, Except.ok postedToChannel) =>
    match dmStage cfg env items message with
    | (dmCalls, Except.ok n) =>
      (calls ++ dmCalls, Except.ok ⟨items.length, postedToChannel, n⟩)
    | (dmCalls, Except.error e) => (calls ++ dmCalls, Except.error e)

/-- Number of pacing delays (`setTimeout(…, 1100)`) in a call trace. -/
def countDelays (calls : List SlackCall) : Nat :=
  calls.countP (fun c => decide (c = SlackCall.sleep 1100))

/-- Number of webhook POSTs in a call trace. -/
def countWebhookPosts (calls : List SlackCall) : Nat :=
  calls.countP (fun c => match c with | SlackCall.webhookPost _ _ => true | _ => false)

/-- The message text a call delivers, when it delivers one. -/
def callText : SlackCall → Option String
  | SlackCall.webhookPost _ text => some text
  | SlackCall.chatPostMessage _ text => some text
  | SlackCall.conversationsOpen _ => none
  | SlackCall.sleep _ => none

/-- Lookup in the insertion-ordered grouping map (first binding wins,
`[]` when the key is absent), mirroring `Map.prototype.get`. -/
def lookupGroup : List (String × List Page) → String → List Page
  | [], _ => []
  | (k, ps) :: rest, key => if k = key then ps else lookupGroup rest key

/-- First-occurrence order of the elements of a list (the spec's wording
of group-key order), for comparison with `groupByDueDate`'s key order. -/
def firstOccurrences (ks : List String) : List String :=
  ks.foldl (fun acc k => if k ∈ acc then acc else acc ++ [k]) []

/-- A page with no properties at all: its status extracts to `""` (which
differs from any configured done-status name), its title falls back to
the placeholder, and it has no due date. -/
def pageBare : Page := ⟨[]⟩

/-- A page with a one-fragment title and a date-typed due date. -/
def titledDatePage (t d : String) : Page :=
  ⟨[(PROP_TITLE, { type := "title", title := some [⟨t⟩] }),
    (PROP_NEXT_DUE, { type := "date", date := some ⟨some d⟩ })]⟩

/-- Example item A of the grouping-stability scenario (due 2024-01-02). -/
def pageA : Page := titledDatePage "A" "2024-01-02"

/-- Example item B of the grouping-stability scenario (due 2024-01-01). -/
def pageB : Page := titledDatePage "B" "2024-01-01"

/-- Example item C of the grouping-stability scenario (due 2024-01-02). -/
def pageC : Page := titledDatePage "C" "2024-01-02"

/-- Concrete Slack collaborator: opening a DM with user `U456` yields
channel `D999`, other opens return no channel id; the webhook accepts. -/
def envEx : SlackEnv :=
  { openChannelId := fun u => if u = "U456" then some "D999" else none,
    webhookOk := fun _ => true }

/-- Config: one `D…` DM target, bot token present, no webhook. -/
def cfgOneTarget : Config := { botToken := "xoxb-1", dmTargets := ["D1"] }

/-- Config: two `D…` DM targets, bot token present, no webhook. -/
def cfgTwoTargets : Config := { botToken := "xoxb-1", dmTargets := ["D1", "D2"] }

/-- Config: a DM target configured but no bot token. -/
def cfgDmNoToken : Config := { dmTargets := ["U1"] }

/-- Config: no webhook URL and `postWhenEmpty = false`. -/
def cfgNoUrlNoEmpty : Config := { postWhenEmpty := false }

/-- Config: webhook URL configured, `postWhenEmpty = false`. -/
def cfgHookNoEmpty : Config :=
  { webhookUrl := "https://hooks.example/x", postWhenEmpty := false }

/-- Config: webhook URL, bot token and one DM target. -/
def cfgFull : Config :=
  { webhookUrl := "https://hooks.example/x", botToken := "xoxb-1",
    dmTargets := ["D1"] }

/-!
## Helper lemmas

Shape and counting lemmas about the delivery traces, shared by the claim
theorems below.
-/

/-- Every call the webhook stage makes is the webhook POST of the given
message. -/
theorem postToSlackWebhook_calls (env : SlackEnv) (url text : String) :
    ∀ c ∈ (postToSlackWebhook env url text).1,
      c = SlackCall.webhookPost url text := by
  intro c hc
  unfold postToSlackWebhook at hc
  split at hc
  · simp at hc
  · split at hc <;> simpa using hc

/-- Every call `openBotDmWithUser` makes is the `conversations.open` for
the given user. -/
theorem openBotDmWithUser_calls (env : SlackEnv) (hs : Bool) (u : String) :
    ∀ c ∈ (openBotDmWithUser env hs u).1,
      c = SlackCall.conversationsOpen u := by
  intro c hc
  unfold openBotDmWithUser at hc
  split at hc
  · simp at hc
  · split at hc <;> simpa using hc

/-- Every call `dmTarget` makes is a conversation-open or a post of the
given text. -/
theorem dmTarget_calls (env : SlackEnv) (hs : Bool) (t text : String) :
    ∀ c ∈ (dmTarget env hs t text).1,
      (∃ u, c = SlackCall.conversationsOpen u) ∨
      ∃ ch, c = SlackCall.chatPostMessage ch text := by
  intro c hc
  cases hs with
  | false => simp [dmTarget] at hc
  | true =>
    by_cases hD : jsStartsWith t "D"
    · simp [dmTarget, hD] at hc
      exact Or.inr ⟨t, hc⟩
    · by_cases hU : jsStartsWith t "U"
      · cases hop : env.openChannelId t with
        | some cid =>
          simp [dmTarget, hD, hU, openBotDmWithUser, hop] at hc
          rcases hc with h | h
          · exact Or.inl ⟨t, h⟩
          · exact Or.inr ⟨cid, h⟩
        | none =>
          simp [dmTarget, hD, hU, openBotDmWithUser, hop] at hc
          exact Or.inl ⟨t, hc⟩
      · simp [dmTarget, hD, hU] at hc

/-- Every call the DM loop makes is a conversation-open, a post of the
given text, or the 1100 ms pacing delay. -/
theorem dmLoop_calls (env : SlackEnv) (hs : Bool) (text : String) :
    ∀ (ts : List String), ∀ c ∈ (dmLoop env hs text ts).1,
      (∃ u, c = SlackCall.conversationsOpen u) ∨
      (∃ ch, c = SlackCall.chatPostMessage ch text) ∨
      c = SlackCall.sleep 1100 := by
  intro ts
  induction ts with
  | nil => intro c hc; simp [dmLoop] at hc
  | cons t rest ih =>
    intro c hc
    rw [dmLoop] at hc
    rcases hdt : dmTarget env hs t text with ⟨tCalls, tRes⟩
    rw [hdt] at hc
    have htc : ∀ c ∈ tCalls,
        (∃ u, c = SlackCall.conversationsOpen u) ∨
        ∃ ch, c = SlackCall.chatPostMessage ch text := by
      intro c hcc
      exact dmTarget_calls env hs t text c (by rw [hdt]; exact hcc)
    cases tRes with
    | error e =>
      rcases htc c hc with h | h
      · exact Or.inl h
      · exact Or.inr (Or.inl h)
    | ok u =>
      rcases hrest : dmLoop env hs text rest with ⟨restCalls, restRes⟩
      rw [hrest] at hc
      have hrc : c ∈ tCalls ++ SlackCall.sleep 1100 :: restCalls := by
        cases restRes <;> exact hc
      rcases List.mem_append.1 hrc with h | h
      · rcases htc c h with h' | h'
        · exact Or.inl h'
        · exact Or.inr (Or.inl h')
      · rcases List.mem_cons.1 h with h' | h'
        · exact Or.inr (Or.inr h')
        · exact ih c (by rw [hrest]; exact h')

/-- A trace with no 1100 ms sleep has zero pacing delays. -/
theorem countDelays_eq_zero {calls : List SlackCall}
    (h : ∀ c ∈ calls, c ≠ SlackCall.sleep 1100) : countDelays calls = 0 := by
  rw [countDelays, List.countP_eq_zero]
  intro a ha
  simpa using h a ha

/-- A trace of opens, posts and sleeps has zero webhook POSTs. -/
theorem countWebhookPosts_eq_zero {calls : List SlackCall}
    (h : ∀ c ∈ calls, (∃ u, c = SlackCall.conversationsOpen u) ∨
      (∃ ch t, c = SlackCall.chatPostMessage ch t) ∨
      ∃ ms, c = SlackCall.sleep ms) :
    countWebhookPosts calls = 0 := by
  rw [countWebhookPosts, List.countP_eq_zero]
  intro a ha
  rcases h a ha with ⟨u, rfl⟩ | ⟨ch, t, rfl⟩ | ⟨ms, rfl⟩ <;> simp

/-- Webhook posts counted over an appended trace. -/
theorem countWebhookPosts_append (a b : List SlackCall) :
    countWebhookPosts (a ++ b) = countWebhookPosts a + countWebhookPosts b :=
  List.countP_append _ _ _

/-- Delays counted over an appended trace. -/
theorem countDelays_append (a b : List SlackCall) :
    countDelays (a ++ b) = countDelays a + countDelays b :=
  List.countP_append _ _ _

/-- Delays counted past a leading sleep. -/
theorem countDelays_cons_sleep (l : List SlackCall) :
    countDelays (SlackCall.sleep 1100 :: l) = countDelays l + 1 := by
  simp [countDelays, List.countP_cons]

/-- `dmTarget` itself never sleeps. -/
theorem dmTarget_no_delay (env : SlackEnv) (hs : Bool) (t text : String) :
    countDelays (dmTarget env hs t text).1 = 0 := by
  apply countDelays_eq_zero
  intro c hc
  rcases dmTarget_calls env hs t text c hc with ⟨u, rfl⟩ | ⟨ch, rfl⟩ <;> simp

/-- A DM loop that completes without throwing sends to every target and
sleeps exactly once per target — including after the last one. -/
theorem dmLoop_ok_spec (env : SlackEnv) (hs : Bool) (text : String) :
    ∀ (ts : List String) (calls : List SlackCall) (n : Nat),
      dmLoop env hs text ts = (calls, Except.ok n) →
      countDelays calls = ts.length ∧ n = ts.length := by
  intro ts
  induction ts with
  | nil =>
    intro calls n h
    rw [dmLoop] at h
    simp only [Prod.mk.injEq, Except.ok.injEq] at h
    obtain ⟨h1, h2⟩ := h
    subst h1 h2
    simp [countDelays]
  | cons t rest ih =>
    intro calls n h
    rw [dmLoop] at h
    rcases hdt : dmTarget env hs t text with ⟨tCalls, tRes⟩
    rw [hdt] at h
    cases tRes with
    | error e => simp at h
    | ok u =>
      rcases hrest : dmLoop env hs text rest with ⟨restCalls, restRes⟩
      rw [hrest] at h
      cases restRes with
      | error e => simp at h
      | ok m =>
        simp only [Prod.mk.injEq, Except.ok.injEq] at h
        obtain ⟨hcalls, hn⟩ := h
        obtain ⟨hc, hm⟩ := ih restCalls m hrest
        have htd : countDelays tCalls = 0 := by
          have := dmTarget_no_delay env hs t text
          rwa [hdt] at this
        subst hcalls hn hm
        constructor
        · rw [countDelays_append, countDelays_cons_sleep, htd, hc]
          simp [List.length_cons]
        · simp [List.length_cons]

/-- Every call the channel stage makes is the webhook POST of the given
message. -/
theorem channelStage_calls (cfg : Config) (env : SlackEnv) (items : List Page)
    (message : String) :
    ∀ c ∈ (channelStage cfg env items message).1,
      c = SlackCall.webhookPost cfg.webhookUrl message := by
  intro c hc
  unfold channelStage at hc
  split at hc
  · exact postToSlackWebhook_calls env cfg.webhookUrl message c hc
  · simp at hc

/-- With no webhook URL the channel stage makes no call and resolves to
`false` without throwing. -/
theorem channelStage_no_url (cfg : Config) (env : SlackEnv) (items : List Page)
    (message : String) (hurl : cfg.webhookUrl = "") :
    channelStage cfg env items message = ([], Except.ok false) := by
  unfold channelStage postToSlackWebhook
  rw [hurl]
  simp

/-- With a configured, accepting webhook the channel stage posts exactly
when the gate is open and resolves to the gate's value. -/
theorem channelStage_ok (cfg : Config) (env : SlackEnv) (items : List Page)
    (message : String) (hurl : cfg.webhookUrl ≠ "")
    (hok : env.webhookOk cfg.webhookUrl = true) :
    channelStage cfg env items message =
      (if items.length != 0 || cfg.postWhenEmpty then
        [SlackCall.webhookPost cfg.webhookUrl message] else [],
       Except.ok (items.length != 0 || cfg.postWhenEmpty)) := by
  unfold channelStage postToSlackWebhook
  cases hg : (items.length != 0 || cfg.postWhenEmpty) with
  | false => simp [hg]
  | true => simp [hg, hurl, hok]

/-- Every call the DM stage makes is a conversation-open, a post of the
given message, or the pacing delay. -/
theorem dmStage_calls (cfg : Config) (env : SlackEnv) (items : List Page)
    (message : String) :
    ∀ c ∈ (dmStage cfg env items message).1,
      (∃ u, c = SlackCall.conversationsOpen u) ∨
      (∃ ch, c = SlackCall.chatPostMessage ch message) ∨
      c = SlackCall.sleep 1100 := by
  intro c hc
  unfold dmStage at hc
  split at hc
  · split at hc
    · simp at hc
    · exact dmLoop_calls env (cfg.botToken != "") message cfg.dmTargets c hc
  · simp at hc

/-- The DM stage is skipped (no calls, zero DMs) when there are no due
items or no configured targets. -/
theorem dmStage_skip (cfg : Config) (env : SlackEnv) (items : List Page)
    (message : String) (h : items.length = 0 ∨ cfg.dmTargets.length = 0) :
    dmStage cfg env items message = ([], Except.ok 0) := by
  unfold dmStage
  rcases h with h | h <;> simp [h]

/-- A DM stage that resolves without throwing, run with due items,
reports one DM per configured target and slept once per target. -/
theorem dmStage_ok_spec (cfg : Config) (env : SlackEnv) (items : List Page)
    (message : String) (calls : List SlackCall) (n : Nat)
    (hitems : items.length ≠ 0)
    (h : dmStage cfg env items message = (calls, Except.ok n)) :
    countDelays calls = cfg.dmTargets.length ∧ n = cfg.dmTargets.length := by
  unfold dmStage at h
  by_cases ht : cfg.dmTargets.length = 0
  · rw [ht]
    simp [ht] at h
    obtain ⟨h1, h2⟩ := h
    subst h1 h2
    simp [countDelays]
  · have hcond : (items.length != 0 && cfg.dmTargets.length != 0) = true := by
      simp [hitems, ht]
    rw [if_pos hcond] at h
    by_cases hb : cfg.botToken = ""
    · rw [if_pos hb] at h
      simp at h
    · rw [if_neg hb] at h
      exact dmLoop_ok_spec env (cfg.botToken != "") message cfg.dmTargets calls n h

/-- `main` zeta-reduced to its two stages, for rewriting. -/
theorem main_unfold (cfg : Config) (env : SlackEnv) (queryResults : List Page) :
    main cfg env queryResults =
      match channelStage cfg env (fetchDueItems queryResults cfg.doneStatusName)
        (formatDigest (fetchDueItems queryResults cfg.doneStatusName)
          cfg.lookaheadDays) with
      | (calls, Except.error e) => (calls, Except.error e)
      | (calls, Except.ok postedToChannel) =>
        match dmStage cfg env (fetchDueItems queryResults cfg.doneStatusName)
          (formatDigest (fetchDueItems queryResults cfg.doneStatusName)
            cfg.lookaheadDays) with
        | (dmCalls, Except.ok n) =>
          (calls ++ dmCalls,
            Except.ok ⟨(fetchDueItems queryResults cfg.doneStatusName).length,
              postedToChannel, n⟩)
        | (dmCalls, Except.error e) => (calls ++ dmCalls, Except.error e) := rfl

/-- `main` with no webhook URL: the channel stage contributes no call and
resolves to not-posted, leaving the DM stage. -/
theorem main_no_url (cfg : Config) (env : SlackEnv) (queryResults : List Page)
    (hurl : cfg.webhookUrl = "") :
    main cfg env queryResults =
      match dmStage cfg env (fetchDueItems queryResults cfg.doneStatusName)
        (formatDigest (fetchDueItems queryResults cfg.doneStatusName)
          cfg.lookaheadDays) with
      | (dmCalls, Except.ok n) =>
        ([] ++ dmCalls,
          Except.ok ⟨(fetchDueItems queryResults cfg.doneStatusName).length,
            false, n⟩)
      | (dmCalls, Except.error e) => ([] ++ dmCalls, Except.error e) := by
  rw [main_unfold, channelStage_no_url cfg env _ _ hurl]

/-!
## Claim theorems
-/

/-- Claim C4: for every list of records returned by the store and every
configured done-status name, no record whose extracted status name equals
that name (compared case-sensitively, as JS strict inequality does) is in
the list `fetchDueItems` returns — hence none reaches `formatDigest`,
which only renders members of that list. -/
theorem c4_done_items_filtered (results : List Page) (doneStatusName : String)
    (p : Page) (hp : p ∈ fetchDueItems results doneStatusName) :
    getStatusName p PROP_STATUS ≠ doneStatusName := by
  have := List.of_mem_filter hp
  simpa using this

/-- Witness for C4 at a concrete record and store response. -/
theorem c4_done_items_filtered_witness :
    getStatusName pageBare PROP_STATUS ≠ "Done" :=
  c4_done_items_filtered [pageBare] "Done" pageBare (by decide)

/-- Claim C6 (code-bug evidence): on the empty item list with lookahead 7
the code does return a two-line message containing "7", but its literals
are the source file's double-encoded bytes, so the output differs from
the claim's exact string, whose emoji are properly encoded. -/
theorem c6_empty_digest_literals :
    formatDigest [] 7 =
      "ðŸ”” *Privacy & Security Reminders* (next 7 days)\nâœ… Nothing due in the next 7 days." ∧
    formatDigest [] 7 ≠
      "🔔 *Privacy & Security Reminders* (next 7 days)\n✅ Nothing due in the next 7 days." := by
  constructor
  · rfl
  · decide

/-- Claim C7: the title extractor is total and never returns the empty
string; it returns the fixed placeholder whenever the title property is
absent, wrong-typed, or resolves (concatenate fragments, trim) to the
empty string — so also for whitespace-only titles — and otherwise returns
the trimmed concatenation. -/
theorem c7_title_never_empty (page : Page) :
    getTitle page ≠ "" ∧
    (page.getProp PROP_TITLE = none → getTitle page = "(Untitled)") ∧
    (∀ prop, page.getProp PROP_TITLE = some prop → prop.type ≠ "title" →
      getTitle page = "(Untitled)") ∧
    (∀ prop, page.getProp PROP_TITLE = some prop → titleText prop = "" →
      getTitle page = "(Untitled)") ∧
    (∀ prop, page.getProp PROP_TITLE = some prop → prop.type = "title" →
      titleText prop ≠ "" → getTitle page = titleText prop) := by
  refine ⟨?_, ?_, ?_, ?_, ?_⟩
  · unfold getTitle
    cases h : page.getProp PROP_TITLE with
    | none => decide
    | some prop =>
      by_cases ht : prop.type = "title"
      · by_cases hs : titleText prop = ""
        · simp only [ht, if_true, hs, if_pos]
          decide
        · simp only [ht, if_true, if_neg hs]
          exact hs
      · simp only [if_neg ht]
        decide
  · intro h
    unfold getTitle
    rw [h]
  · intro prop h ht
    unfold getTitle
    rw [h]
    simp [ht]
  · intro prop h hs
    unfold getTitle
    rw [h]
    by_cases ht : prop.type = "title"
    · simp [ht, hs]
    · simp [ht]
  · intro prop h ht hs
    unfold getTitle
    rw [h]
    simp [ht, hs]

/-- Witness for C7 at two concrete records: a record with no title
property yields the placeholder (and not the empty string), and a record
with a whitespace-only title yields the placeholder. -/
theorem c7_title_never_empty_witness :
    getTitle pageBare = "(Untitled)" ∧ getTitle pageBare ≠ "" ∧
    getTitle (titledDatePage "  " "2024-01-01") = "(Untitled)" :=
  ⟨(c7_title_never_empty pageBare).2.1 (by decide),
   (c7_title_never_empty pageBare).1,
   (c7_title_never_empty (titledDatePage "  " "2024-01-01")).2.2.2.1
     { type := "title", title := some [⟨"  "⟩] } (by decide) (by decide)⟩

/-- Claim C8: per-target dispatch by identifier prefix, with the bot
client present — a `D…` target is posted to directly with no
conversation-open; a `U…` target triggers exactly one conversation-open
and then one post to the returned conversation id; any other prefix
throws the invalid-DM-target error. -/
theorem c8_dm_dispatch (env : SlackEnv) (targetId text : String) :
    (jsStartsWith targetId "D" = true →
      dmTarget env true targetId text =
        ([SlackCall.chatPostMessage targetId text], Except.ok ())) ∧
    (jsStartsWith targetId "D" = false → jsStartsWith targetId "U" = true →
      ∀ cid, env.openChannelId targetId = some cid →
        dmTarget env true targetId text =
          ([SlackCall.conversationsOpen targetId,
            SlackCall.chatPostMessage cid text], Except.ok ())) ∧
    (jsStartsWith targetId "D" = false → jsStartsWith targetId "U" = false →
      dmTarget env true targetId text =
        ([], Except.error ("DM target must start with U or D. Got: " ++ targetId))) := by
  refine ⟨?_, ?_, ?_⟩
  · intro hD
    simp [dmTarget, hD]
  · intro hD hU cid hop
    simp [dmTarget, hD, hU, openBotDmWithUser, hop]
  · intro hD hU
    simp [dmTarget, hD, hU]

/-- Witness for C8 at the spec's concrete targets: `D123` posts directly,
`U456` opens then posts to the returned `D999`, and `X1` throws. -/
theorem c8_dm_dispatch_witness :
    dmTarget envEx true "D123" "msg" =
      ([SlackCall.chatPostMessage "D123" "msg"], Except.ok ()) ∧
    dmTarget envEx true "U456" "msg" =
      ([SlackCall.conversationsOpen "U456",
        SlackCall.chatPostMessage "D999" "msg"], Except.ok ()) ∧
    dmTarget envEx true "X1" "msg" =
      ([], Except.error ("DM target must start with U or D. Got: " ++ "X1")) :=
  ⟨(c8_dm_dispatch envEx "D123" "msg").1 (by decide),
   (c8_dm_dispatch envEx "U456" "msg").2.1 (by decide) (by decide) "D999" (by decide),
   (c8_dm_dispatch envEx "X1" "msg").2.2 (by decide) (by decide)⟩

/-- Claim C9: with no webhook URL configured, `postToSlackWebhook`
resolves to `false` without making any network call; consequently the
run's `channelPosted` outcome is `false` — with no webhook POST in the
whole trace — even in configurations where the gating rule would select
the channel, and this is not an error. -/
theorem c9_missing_webhook_not_posted (env : SlackEnv) (text : String)
    (cfg : Config) (queryResults : List Page) :
    postToSlackWebhook env "" text = ([], Except.ok false) ∧
    (cfg.webhookUrl = "" →
      countWebhookPosts (main cfg env queryResults).1 = 0 ∧
      ∀ r, (main cfg env queryResults).2 = Except.ok r →
        r.channelPosted = false) := by
  constructor
  · rfl
  · intro hurl
    rw [main_no_url cfg env queryResults hurl]
    rcases hdm : dmStage cfg env (fetchDueItems queryResults cfg.doneStatusName)
        (formatDigest (fetchDueItems queryResults cfg.doneStatusName)
          cfg.lookaheadDays) with ⟨dmCalls, dmRes⟩
    have hcount : countWebhookPosts dmCalls = 0 := by
      apply countWebhookPosts_eq_zero
      intro c hc
      rcases dmStage_calls cfg env _ _ c (by rw [hdm]; exact hc) with
        ⟨u, rfl⟩ | ⟨ch, rfl⟩ | rfl
      · exact Or.inl ⟨u, rfl⟩
      · exact Or.inr (Or.inl ⟨ch, _, rfl⟩)
      · exact Or.inr (Or.inr ⟨1100, rfl⟩)
    cases dmRes with
    | ok n =>
      refine ⟨by simpa using hcount, ?_⟩
      intro r hr
      simp only [List.nil_append, Except.ok.injEq] at hr
      subst hr
      rfl
    | error e =>
      refine ⟨by simpa using hcount, ?_⟩
      intro r hr
      simp at hr

/-- Witness for C9 at a concrete run: webhook URL unset,
`postWhenEmpty = true` and zero due items, so the gate selects the
channel, yet no webhook POST happens and `channelPosted` is `false`. -/
theorem c9_missing_webhook_not_posted_witness :
    postToSlackWebhook envEx "" "hello" = ([], Except.ok false) ∧
    countWebhookPosts (main cfgDmNoToken envEx []).1 = 0 ∧
    (⟨0, false, 0⟩ : RunResult).channelPosted = false :=
  ⟨(c9_missing_webhook_not_posted envEx "hello" cfgDmNoToken []).1,
   ((c9_missing_webhook_not_posted envEx "hello" cfgDmNoToken []).2 rfl).1,
   ((c9_missing_webhook_not_posted envEx "hello" cfgDmNoToken []).2 rfl).2
     ⟨0, false, 0⟩ rfl⟩

/-- Claim C2 (amended): the missing-bot-token configuration error is
fatal only when the DM stage is reached, i.e. when at least one item is
due: with DM targets configured, no bot token and at least one due item,
the run terminates with an error — and when additionally no webhook URL
is set, with exactly the missing-token message. -/
theorem c2_dm_token_fatal_with_due_items (cfg : Config) (env : SlackEnv)
    (queryResults : List Page)
    (htargets : cfg.dmTargets.length ≠ 0)
    (htoken : cfg.botToken = "")
    (hitems : (fetchDueItems queryResults cfg.doneStatusName).length ≠ 0) :
    (∃ e, (main cfg env queryResults).2 = Except.error e) ∧
    (cfg.webhookUrl = "" →
      (main cfg env queryResults).2 =
        Except.error "SLACK_DM_USER_IDS is set but SLACK_BOT_TOKEN is missing.") := by
  have hdm : dmStage cfg env (fetchDueItems queryResults cfg.doneStatusName)
      (formatDigest (fetchDueItems queryResults cfg.doneStatusName)
        cfg.lookaheadDays) =
      ([], Except.error "SLACK_DM_USER_IDS is set but SLACK_BOT_TOKEN is missing.") := by
    unfold dmStage
    have hcond : ((fetchDueItems queryResults cfg.doneStatusName).length != 0 &&
        cfg.dmTargets.length != 0) = true := by
      simp [hitems, htargets]
    rw [if_pos hcond, if_pos htoken]
  constructor
  · rw [main_unfold]
    rcases hch : channelStage cfg env (fetchDueItems queryResults cfg.doneStatusName)
        (formatDigest (fetchDueItems queryResults cfg.doneStatusName)
          cfg.lookaheadDays) with ⟨chCalls, chRes⟩
    cases chRes with
    | error e => exact ⟨e, rfl⟩
    | ok posted =>
      rw [hdm]
      exact ⟨_, rfl⟩
  · intro hurl
    rw [main_no_url cfg env queryResults hurl, hdm]

/-- Counterexample to claim C2 as stated: with a DM target configured and
the bot token missing but zero due items, the run completes successfully,
so the error is not raised "regardless of whether any items are due". -/
theorem c2_counterexample :
    cfgDmNoToken.dmTargets.length ≠ 0 ∧ cfgDmNoToken.botToken = "" ∧
    main cfgDmNoToken envEx [] = ([], Except.ok ⟨0, false, 0⟩) :=
  ⟨by decide, rfl, rfl⟩

/-- Witness for C2 at a concrete run with one due item: the run fails
with exactly the missing-token message. -/
theorem c2_dm_token_fatal_with_due_items_witness :
    (main cfgDmNoToken envEx [pageBare]).2 =
      Except.error "SLACK_DM_USER_IDS is set but SLACK_BOT_TOKEN is missing." :=
  (c2_dm_token_fatal_with_due_items cfgDmNoToken envEx [pageBare]
    (by decide) rfl (by decide)).2 rfl

/-- Claim C1 (amended): the 1.1 s pacing delay runs after every
successful DM send — including the one after the last target: a run that
completes without throwing and has at least one due item performs exactly
one delay per configured DM target and reports that many DMs sent. -/
theorem c1_delay_after_every_send (cfg : Config) (env : SlackEnv)
    (queryResults : List Page) (r : RunResult)
    (hitems : (fetchDueItems queryResults cfg.doneStatusName).length ≠ 0)
    (hok : (main cfg env queryResults).2 = Except.ok r) :
    countDelays (main cfg env queryResults).1 = cfg.dmTargets.length ∧
    r.dmsSent = cfg.dmTargets.length := by
  rw [main_unfold] at hok ⊢
  rcases hch : channelStage cfg env (fetchDueItems queryResults cfg.doneStatusName)
      (formatDigest (fetchDueItems queryResults cfg.doneStatusName)
        cfg.lookaheadDays) with ⟨chCalls, chRes⟩
  rw [hch] at hok
  cases chRes with
  | error e => simp at hok
  | ok posted =>
    rcases hdm : dmStage cfg env (fetchDueItems queryResults cfg.doneStatusName)
        (formatDigest (fetchDueItems queryResults cfg.doneStatusName)
          cfg.lookaheadDays) with ⟨dmCalls, dmRes⟩
    rw [hdm] at hok
    cases dmRes with
    | error e => simp at hok
    | ok n =>
      have hr : (⟨(fetchDueItems queryResults cfg.doneStatusName).length,
          posted, n⟩ : RunResult) = r := by
        simpa using hok
      subst hr
      obtain ⟨hcd, hn⟩ := dmStage_ok_spec cfg env _ _ dmCalls n hitems hdm
      have hch0 : countDelays chCalls = 0 := by
        apply countDelays_eq_zero
        intro c hc
        have hcw := channelStage_calls cfg env _ _ c (by rw [hch]; exact hc)
        subst hcw
        simp
      constructor
      · show countDelays (chCalls ++ dmCalls) = cfg.dmTargets.length
        rw [countDelays_append, hch0, hcd]
        exact Nat.zero_add _
      · simpa using hn

/-- Counterexample to claim C1 as stated: a run with one DM target whose
send succeeds performs one pacing delay, not `n - 1 = 0`. -/
theorem c1_counterexample :
    (main cfgOneTarget envEx [pageBare]).2 = Except.ok ⟨1, false, 1⟩ ∧
    countDelays (main cfgOneTarget envEx [pageBare]).1 = 1 :=
  ⟨rfl, rfl⟩

/-- Witness for C1 at a concrete successful run with two DM targets:
two delays occur, one after each send. -/
theorem c1_delay_after_every_send_witness :
    countDelays (main cfgTwoTargets envEx [pageBare]).1 =
      cfgTwoTargets.dmTargets.length ∧
    (⟨1, false, 2⟩ : RunResult).dmsSent = cfgTwoTargets.dmTargets.length :=
  c1_delay_after_every_send cfgTwoTargets envEx [pageBare] ⟨1, false, 2⟩
    (by decide) rfl

/-- Claim C3 (amended): provided a webhook URL is configured and the
webhook accepts, the channel is posted to (exactly one webhook POST, and
`channelPosted = true` on a clean run) iff at least one item is due or
`postWhenEmpty` is `true`; with `postWhenEmpty = false` and zero due
items the whole run makes no call and reports not-posted without error.
Without a configured webhook the gate may select the channel and yet
nothing is posted (see the C9 theorem). -/
theorem c3_channel_gating (cfg : Config) (env : SlackEnv)
    (queryResults : List Page)
    (hurl : cfg.webhookUrl ≠ "")
    (hok : env.webhookOk cfg.webhookUrl = true) :
    (countWebhookPosts (main cfg env queryResults).1 =
      if ((fetchDueItems queryResults cfg.doneStatusName).length != 0 ||
          cfg.postWhenEmpty) = true then 1 else 0) ∧
    (∀ r, (main cfg env queryResults).2 = Except.ok r →
      r.channelPosted =
        ((fetchDueItems queryResults cfg.doneStatusName).length != 0 ||
          cfg.postWhenEmpty)) ∧
    ((fetchDueItems queryResults cfg.doneStatusName).length = 0 →
      cfg.postWhenEmpty = false →
      main cfg env queryResults = ([], Except.ok ⟨0, false, 0⟩)) := by
  rw [main_unfold, channelStage_ok cfg env _ _ hurl hok]
  rcases hdm : dmStage cfg env (fetchDueItems queryResults cfg.doneStatusName)
      (formatDigest (fetchDueItems queryResults cfg.doneStatusName)
        cfg.lookaheadDays) with ⟨dmCalls, dmRes⟩
  have hdmw : countWebhookPosts dmCalls = 0 := by
    apply countWebhookPosts_eq_zero
    intro c hc
    rcases dmStage_calls cfg env _ _ c (by rw [hdm]; exact hc) with
      ⟨u, rfl⟩ | ⟨ch, rfl⟩ | rfl
    · exact Or.inl ⟨u, rfl⟩
    · exact Or.inr (Or.inl ⟨ch, _, rfl⟩)
    · exact Or.inr (Or.inr ⟨1100, rfl⟩)
  cases dmRes with
  | ok n =>
    refine ⟨?_, ?_, ?_⟩
    · show countWebhookPosts
        ((if ((fetchDueItems queryResults cfg.doneStatusName).length != 0 ||
            cfg.postWhenEmpty) = true then
          [SlackCall.webhookPost cfg.webhookUrl
            (formatDigest (fetchDueItems queryResults cfg.doneStatusName)
              cfg.lookaheadDays)] else []) ++ dmCalls) = _
      rw [countWebhookPosts_append, hdmw]
      by_cases hg : ((fetchDueItems queryResults cfg.doneStatusName).length != 0 ||
          cfg.postWhenEmpty) = true
      · rw [if_pos hg, if_pos hg]
        rfl
      · rw [if_neg hg, if_neg hg]
        rfl
    · intro r hr
      simp only [Except.ok.injEq] at hr
      subst hr
      rfl
    · intro hlen hpe
      have hskip := dmStage_skip cfg env
        (fetchDueItems queryResults cfg.doneStatusName)
        (formatDigest (fetchDueItems queryResults cfg.doneStatusName)
          cfg.lookaheadDays) (Or.inl hlen)
      rw [hdm] at hskip
      simp only [Prod.mk.injEq, Except.ok.injEq] at hskip
      obtain ⟨h1, h2⟩ := hskip
      subst h1 h2
      simp [hlen, hpe]
  | error e =>
    refine ⟨?_, ?_, ?_⟩
    · show countWebhookPosts
        ((if ((fetchDueItems queryResults cfg.doneStatusName).length != 0 ||
            cfg.postWhenEmpty) = true then
          [SlackCall.webhookPost cfg.webhookUrl
            (formatDigest (fetchDueItems queryResults cfg.doneStatusName)
              cfg.lookaheadDays)] else []) ++ dmCalls) = _
      rw [countWebhookPosts_append, hdmw]
      by_cases hg : ((fetchDueItems queryResults cfg.doneStatusName).length != 0 ||
          cfg.postWhenEmpty) = true
      · rw [if_pos hg, if_pos hg]
        rfl
      · rw [if_neg hg, if_neg hg]
        rfl
    · intro r hr
      simp at hr
    · intro hlen hpe
      have hskip := dmStage_skip cfg env
        (fetchDueItems queryResults cfg.doneStatusName)
        (formatDigest (fetchDueItems queryResults cfg.doneStatusName)
          cfg.lookaheadDays) (Or.inl hlen)
      rw [hdm] at hskip
      simp at hskip

/-- Counterexample to claim C3 as stated: with `postWhenEmpty = false`,
one due item and no webhook URL, the gate selects the channel but no
channel post happens and the run reports not-posted. -/
theorem c3_counterexample :
    (fetchDueItems [pageBare] cfgNoUrlNoEmpty.doneStatusName).length = 1 ∧
    cfgNoUrlNoEmpty.postWhenEmpty = false ∧
    main cfgNoUrlNoEmpty envEx [pageBare] = ([], Except.ok ⟨1, false, 0⟩) :=
  ⟨rfl, rfl, rfl⟩

/-- Witness for C3 at a concrete run: webhook configured,
`postWhenEmpty = false` and one due item, so the channel post happens. -/
theorem c3_channel_gating_witness :
    (countWebhookPosts (main cfgHookNoEmpty envEx [pageBare]).1 =
      if ((fetchDueItems [pageBare] cfgHookNoEmpty.doneStatusName).length != 0 ||
          cfgHookNoEmpty.postWhenEmpty) = true then 1 else 0) ∧
    (∀ r, (main cfgHookNoEmpty envEx [pageBare]).2 = Except.ok r →
      r.channelPosted =
        ((fetchDueItems [pageBare] cfgHookNoEmpty.doneStatusName).length != 0 ||
          cfgHookNoEmpty.postWhenEmpty)) ∧
    ((fetchDueItems [pageBare] cfgHookNoEmpty.doneStatusName).length = 0 →
      cfgHookNoEmpty.postWhenEmpty = false →
      main cfgHookNoEmpty envEx [pageBare] = ([], Except.ok ⟨0, false, 0⟩)) :=
  c3_channel_gating cfgHookNoEmpty envEx [pageBare] (by decide) rfl

/-- Claim C10: the digest is computed once and the identical string goes
to every destination — every call in a run's trace that carries a message
(the webhook POST and each `chat.postMessage`) carries exactly
`formatDigest` of the fetched items. -/
theorem c10_single_message (cfg : Config) (env : SlackEnv)
    (queryResults : List Page) :
    ∀ c ∈ (main cfg env queryResults).1, ∀ t, callText c = some t →
      t = formatDigest (fetchDueItems queryResults cfg.doneStatusName)
        cfg.lookaheadDays := by
  intro c hc t ht
  rw [main_unfold] at hc
  rcases hch : channelStage cfg env (fetchDueItems queryResults cfg.doneStatusName)
      (formatDigest (fetchDueItems queryResults cfg.doneStatusName)
        cfg.lookaheadDays) with ⟨chCalls, chRes⟩
  rw [hch] at hc
  have hchan : c ∈ chCalls →
      t = formatDigest (fetchDueItems queryResults cfg.doneStatusName)
        cfg.lookaheadDays := by
    intro h
    have hcw := channelStage_calls cfg env _ _ c (by rw [hch]; exact h)
    subst hcw
    simp only [callText, Option.some.injEq] at ht
    exact ht.symm
  have hdmc : c ∈ (dmStage cfg env (fetchDueItems queryResults cfg.doneStatusName)
      (formatDigest (fetchDueItems queryResults cfg.doneStatusName)
        cfg.lookaheadDays)).1 →
      t = formatDigest (fetchDueItems queryResults cfg.doneStatusName)
        cfg.lookaheadDays := by
    intro h
    rcases dmStage_calls cfg env _ _ c h with ⟨u, rfl⟩ | ⟨ch, rfl⟩ | rfl
    · simp [callText] at ht
    · simp only [callText, Option.some.injEq] at ht
      exact ht.symm
    · simp [callText] at ht
  cases chRes with
  | error e => exact hchan hc
  | ok posted =>
    rcases hdm : dmStage cfg env (fetchDueItems queryResults cfg.doneStatusName)
        (formatDigest (fetchDueItems queryResults cfg.doneStatusName)
          cfg.lookaheadDays) with ⟨dmCalls, dmRes⟩
    rw [hdm] at hc
    have hc' : c ∈ chCalls ++ dmCalls := by
      cases dmRes <;> simpa using hc
    rcases List.mem_append.1 hc' with h | h
    · exact hchan h
    · exact hdmc (by rw [hdm]; exact h)

/-- Witness for C10 at a concrete run with both a webhook and a DM
target: the DM's post carries exactly the digest string. -/
theorem c10_single_message_witness :
    SlackCall.chatPostMessage "D1"
        (formatDigest (fetchDueItems [pageBare] cfgFull.doneStatusName)
          cfgFull.lookaheadDays) ∈ (main cfgFull envEx [pageBare]).1 ∧
    formatDigest (fetchDueItems [pageBare] cfgFull.doneStatusName)
        cfgFull.lookaheadDays =
      formatDigest (fetchDueItems [pageBare] cfgFull.doneStatusName)
        cfgFull.lookaheadDays :=
  ⟨by decide,
   c10_single_message cfgFull envEx [pageBare]
     (SlackCall.chatPostMessage "D1"
       (formatDigest (fetchDueItems [pageBare] cfgFull.doneStatusName)
         cfgFull.lookaheadDays))
     (by decide) _ rfl⟩

/-- Lookup after one `Map.set`-style insertion: the inserted key's group
gains `p` at the end; every other group is unchanged. -/
theorem lookupGroup_insertGrouped (g : List (String × List Page)) (key : String)
    (p : Page) : ∀ key', lookupGroup (insertGrouped g key p) key' =
      if key' = key then lookupGroup g key ++ [p] else lookupGroup g key' := by
  induction g with
  | nil =>
    intro key'
    by_cases h : key' = key
    · subst h
      simp [insertGrouped, lookupGroup]
    · simp [insertGrouped, lookupGroup, h, Ne.symm h]
  | cons kv rest ih =>
    intro key'
    rcases kv with ⟨k₀, ps₀⟩
    by_cases hk : k₀ = key
    · subst hk
      by_cases h : key' = k₀
      · subst h
        simp [insertGrouped, lookupGroup]
      · simp [insertGrouped, lookupGroup, h, Ne.symm h]
    · by_cases hkk : k₀ = key'
      · subst hkk
        simp [insertGrouped, lookupGroup, hk]
      · simp [insertGrouped, lookupGroup, hk, hkk, ih key']

/-- Key order after one insertion: unchanged when the key is present,
appended at the end when it is new. -/
theorem keys_insertGrouped (g : List (String × List Page)) (key : String)
    (p : Page) :
    (insertGrouped g key p).map Prod.fst =
      if key ∈ g.map Prod.fst then g.map Prod.fst
      else g.map Prod.fst ++ [key] := by
  induction g with
  | nil => simp [insertGrouped]
  | cons kv rest ih =>
    rcases kv with ⟨k₀, ps₀⟩
    by_cases hk : k₀ = key
    · subst hk
      simp [insertGrouped]
    · by_cases hm : key ∈ rest.map Prod.fst <;>
        simp [insertGrouped, hk, ih, Ne.symm hk, hm]

/-- Folding the grouping step over the input appends, to each key's
group, exactly the input records with that key, in input order. -/
theorem lookupGroup_foldl (items : List Page) :
    ∀ (g : List (String × List Page)) (key : String),
      lookupGroup
          (items.foldl (fun groups p => insertGrouped groups (dueKey p) p) g)
          key =
        lookupGroup g key ++ items.filter (fun p => dueKey p == key) := by
  induction items with
  | nil => intro g key; simp
  | cons p rest ih =>
    intro g key
    simp only [List.foldl_cons, List.filter_cons]
    rw [ih, lookupGroup_insertGrouped]
    by_cases h : dueKey p = key
    · simp [h, List.append_assoc]
    · simp [h, Ne.symm h]

/-- Folding the grouping step over the input accumulates keys in
first-occurrence order. -/
theorem keys_foldl (items : List Page) :
    ∀ g : List (String × List Page),
      (items.foldl (fun groups p => insertGrouped groups (dueKey p) p) g).map
          Prod.fst =
        (items.map dueKey).foldl
          (fun acc k => if k ∈ acc then acc else acc ++ [k])
          (g.map Prod.fst) := by
  induction items with
  | nil => intro g; simp
  | cons p rest ih =>
    intro g
    simp only [List.foldl_cons, List.map_cons]
    rw [ih, keys_insertGrouped]

/-- Claim C5 (amended): grouping is stable — each group's members are
exactly the input records carrying that key, in input subsequence order,
and group order equals first-occurrence order of the keys in the input;
on the claim's example input A(2024-01-02), B(2024-01-01), C(2024-01-02)
this puts the 2024-01-02 group (A before C) first, then the 2024-01-01
group, since 2024-01-02 occurs first in the input. -/
theorem c5_grouping_stable (items : List Page) :
    (∀ key, lookupGroup (groupByDueDate items) key =
      items.filter (fun p => dueKey p == key)) ∧
    (groupByDueDate items).map Prod.fst =
      firstOccurrences (items.map dueKey) ∧
    groupByDueDate [pageA, pageB, pageC] =
      [("2024-01-02", [pageA, pageC]), ("2024-01-01", [pageB])] := by
  refine ⟨?_, ?_, ?_⟩
  · intro key
    have h := lookupGroup_foldl items [] key
    simpa [groupByDueDate, lookupGroup] using h
  · have h := keys_foldl items []
    simpa [groupByDueDate, firstOccurrences] using h
  · decide

/-- Counterexample to claim C5 as stated: on the claim's own example
input the code's group order is first-occurrence order — the 2024-01-02
group comes first — not the claimed order with 2024-01-01 first. -/
theorem c5_counterexample :
    groupByDueDate [pageA, pageB, pageC] ≠
      [("2024-01-01", [pageB]), ("2024-01-02", [pageA, pageC])] := by
  decide

end Reminders
